import Mathlib

/-!
Shallow embedding of the core orchestration logic of the open-code-interpreter
repository (src/libs/interpreter_lib.py), together with proofs about the
session loop, prompt builders, keyword augmentation, execution dispatch,
recovery loop, mode initialization and API-key validation.

Python strings are modelled as Lean `String`; Python `in` (substring test) is
modelled by an executable character-list infix test; Python `str.lower()` is
modelled by an ASCII character-wise lowering (all strings the program compares
against are ASCII).  External collaborators (the code interpreter backend, the
package installer, the file system, the LLM call and the persistence store) are
modelled as oracles supplied per iteration; the observable actions of one
session-loop iteration are recorded as a trace of events.
-/

namespace OpenInterpreter

/-- Executable infix test on character lists: `hasSubstr needle hay` is true
iff `needle` occurs consecutively inside `hay` (model of Python `needle in hay`). -/
def hasSubstr (needle : List Char) : List Char → Bool
  | [] => needle.isEmpty
  | c :: t => needle.isPrefixOf (c :: t) || hasSubstr needle t

/-- Model of the Python substring test `needle in hay` on strings. -/
def strContains (hay needle : String) : Bool := hasSubstr needle.data hay.data

/-- Model of Python `str.lower()` (ASCII character-wise lowering). -/
def toLowerStr (s : String) : String := ⟨s.data.map Char.toLower⟩

/-- Model of Python `str.startswith(p)`. -/
def strStartsWith (s p : String) : Bool := p.data.isPrefixOf s.data

/-- The four mode flags set by `Interpreter.initialize_mode`
(interpreter_lib.py lines 178-184). -/
structure ModeFlags where
  CODE_MODE : Bool
  SCRIPT_MODE : Bool
  COMMAND_MODE : Bool
  VISION_MODE : Bool
deriving DecidableEq

/-- Embedding of `Interpreter.initialize_mode` (interpreter_lib.py lines
178-184): each flag is set by comparing the `--mode` argument with a literal,
then `CODE_MODE` is forced on when no other flag is set. -/
def initialize_mode (mode : Option String) : ModeFlags :=
  let code := mode == some "code"
  let script := mode == some "script"
  let command := mode == some "command"
  let vision := mode == some "vision"
  let code := if !script && !command && !vision then true else code
  ⟨code, script, command, vision⟩

/-- Embedding of the `INTERPRETER_MODE` string set at the top of
`Interpreter.interpreter_main` (lines 349-355): initialized to "code" by
`initialize`, then overwritten from the flags. -/
def interpreterModeString (f : ModeFlags) : String :=
  if f.SCRIPT_MODE then "Script"
  else if f.COMMAND_MODE then "Command"
  else if f.VISION_MODE then "Vision"
  else "code"

/-- The mutable interpreter state read and written by the prompt builders:
the active target language `INTERPRETER_LANGUAGE` and the conversation
history. -/
structure InterpState where
  INTERPRETER_LANGUAGE : String
  history : List (String × String)
deriving DecidableEq

/-- Embedding of `Interpreter.get_code_prompt` (lines 290-293): builds the
code-mode prompt and appends the (task, prompt) pair to the history. -/
def get_code_prompt (st : InterpState) (task osName : String) : String × InterpState :=
  let prompt := "Generate the code in " ++ st.INTERPRETER_LANGUAGE ++
    " language for this task \x27" ++ task ++ " for Operating System: " ++ osName ++ "\x27."
  (prompt, { st with history := st.history ++ [(task, prompt)] })

/-- The `language_map` dictionary of `Interpreter.get_script_prompt`
(line 296). -/
def language_map : List (String × String) :=
  [("macos", "applescript"), ("linux", "bash"), ("windows", "powershell")]

/-- Embedding of `Interpreter.get_script_prompt` (lines 295-301): rewrites
`INTERPRETER_LANGUAGE` via the `language_map` dictionary lookup on the
lowercased OS name with default python, and
builds the script prompt from the nested conditional on `os_name.lower()`. -/
def get_script_prompt (st : InterpState) (task osName : String) : String × InterpState :=
  let lang := (language_map.lookup (toLowerStr osName)).getD "python"
  let script_type :=
    if toLowerStr osName == "macos" then "Apple script"
    else if toLowerStr osName == "linux" then "Bash Shell script"
    else if toLowerStr osName == "windows" then "Powershell script"
    else "script"
  let prompt := "\nGenerate " ++ script_type ++
    " for this prompt and make this script easy to read and understand for this task \x27" ++
    task ++ " for Operating System is " ++ osName ++ "\x27."
  (prompt, { st with INTERPRETER_LANGUAGE := lang })

/-- Embedding of `Interpreter.get_command_prompt` (lines 303-305). -/
def get_command_prompt (task osName : String) : String :=
  "Generate the single terminal command for this task \x27" ++ task ++
    " for Operating System is " ++ osName ++ "\x27."

/-- Embedding of `Interpreter.handle_vision_mode` (lines 307-309). -/
def handle_vision_mode (task : String) : String :=
  "Give accurate and detailed information about the image provided and be very detailed about the image \x27" ++
    task ++ "\x27."

/-- Embedding of `Interpreter.get_mode_prompt` (lines 311-319): dispatches on
the mode flags in source order; falls through to `none` (Python `None`) when
no flag is set. -/
def get_mode_prompt (f : ModeFlags) (st : InterpState) (task osName : String) :
    Option String × InterpState :=
  if f.CODE_MODE then
    let r := get_code_prompt st task osName
    (some r.1, r.2)
  else if f.SCRIPT_MODE then
    let r := get_script_prompt st task osName
    (some r.1, r.2)
  else if f.COMMAND_MODE then (some (get_command_prompt task osName), st)
  else if f.VISION_MODE then (some (handle_vision_mode task), st)
  else (none, st)

/-- Model of Python `any(word in prompt.lower() for word in words)`. -/
def containsAny (prompt : String) (words : List String) : Bool :=
  words.any (fun word => strContains (toLowerStr prompt) word)

/-- The graph-keyword augmentation of `interpreter_main` (lines 431-436). -/
def graphAug (lang prompt : String) : String :=
  if containsAny prompt ["graph", "graphs"] then
    if lang == "python" then
      prompt ++ "\n" ++ "using Python use Matplotlib save the graph in file called \x27graph.png\x27"
    else if lang == "javascript" then
      prompt ++ "\n" ++ "using JavaScript use Chart.js save the graph in file called \x27graph.png\x27"
    else prompt
  else prompt

/-- The chart-keyword augmentation of `interpreter_main` (lines 438-443). -/
def chartAug (lang prompt : String) : String :=
  if containsAny prompt ["chart", "charts", "plot", "plots"] then
    if lang == "python" then
      prompt ++ "\n" ++ "using Python use Plotly save the chart in file called \x27chart.png\x27"
    else if lang == "javascript" then
      prompt ++ "\n" ++ "using JavaScript use Chart.js save the chart in file called \x27chart.png\x27"
    else prompt
  else prompt

/-- The table-keyword augmentation of `interpreter_main` (lines 445-450). -/
def tableAug (lang prompt : String) : String :=
  if strContains (toLowerStr prompt) "table" then
    if lang == "python" then
      prompt ++ "\n" ++ "using Python use Pandas save the table in file called \x27table.md\x27"
    else if lang == "javascript" then
      prompt ++ "\n" ++ "using JavaScript use DataTables save the table in file called \x27table.html\x27"
    else prompt
  else prompt

/-- The dependency-error signature list of `interpreter_main` (line 503). -/
def error_messages : List String :=
  ["ModuleNotFound", "ImportError", "No module named", "Cannot find module"]

/-- Which of the three execution runners was invoked by the dispatcher. -/
inductive Runner
  | script
  | command
  | code
deriving DecidableEq

/-- Oracle for the external `CodeInterpreter` collaborator: each runner
returns `(stdout, stderr)` or raises (modelled by `Except.error`). -/
structure CodeInterpreterOracle where
  execute_script : String → String → Except String (String × String)
  execute_command : String → Except String (String × String)
  execute_code : String → String → Except String (String × String)

/-- Embedding of `Interpreter.execute_code` (lines 321-341), the Execution
Dispatcher.  Returns the `(code_output, code_error)` pair together with the
list of runners actually invoked (instrumentation; the source invokes exactly
the runners listed).  `none` models Python `None`. -/
def execute_code (f : ModeFlags) (interpMode lang : String) (execFlag : Bool)
    (answer : String) (ci : CodeInterpreterOracle) (extractedCode osName : String) :
    (Option String × Option String) × List Runner :=
  if interpMode == "Vision" then ((none, none), [])
  else
    let execute := if execFlag then "y" else answer
    if toLowerStr execute == "y" then
      if f.SCRIPT_MODE then
        match ci.execute_script extractedCode osName with
        | Except.ok (o, e) => ((some o, some e), [Runner.script])
        | Except.error msg => ((none, some msg), [Runner.script])
      else if f.COMMAND_MODE then
        match ci.execute_command extractedCode with
        | Except.ok (o, e) => ((some o, some e), [Runner.command])
        | Except.error msg => ((none, some msg), [Runner.command])
      else if f.CODE_MODE then
        match ci.execute_code extractedCode lang with
        | Except.ok (o, e) => ((some o, some e), [Runner.code])
        | Except.error msg => ((none, some msg), [Runner.code])
      else ((some "", some ""), [])
    else ((none, none), [])

/-- Observable actions of one session-loop iteration, in program order. -/
inductive Event
  | promptBuilt (prompt : String)
  | cleanResponses
  | modelCall (prompt : String)
  | dispatch (code osName : String)
  | installPkg (pkg : String)
  | sleep (units : Nat)
  | persist (task mode osName lang prompt code model : String)
deriving DecidableEq

/-- How one iteration of the `while True` loop in `interpreter_main` ends:
`break` on exit/quit, fall-through or `continue` otherwise, or an exception
re-raised by the surrounding handler (lines 535-537). -/
inductive IterResult
  | exitLoop
  | continueLoop
  | raised (msg : String)
deriving DecidableEq

/-- Per-iteration oracles for the external collaborators consumed by
`interpreter_main`: user input, the file system, the LLM call, code
extraction, user execute-confirmations and runner results (indexed by
dispatcher-call number, since installing a package can change the second
attempt), and package-name extraction. -/
structure IterEnv where
  task : String
  osName : String
  extract_file_name : String → Option String
  fileExists : Bool
  fileSize : Nat
  readData : Except String String
  genOutput : Except String String
  extract_code : String → String
  answer : Nat → String
  codeInterp : Nat → CodeInterpreterOracle
  extract_package_name : String → String → Option String

/-- Embedding of the file-reference handling of `interpreter_main`
(lines 378-429): when a file name is extracted from the prompt and is not a
URL, and the file exists, is under 50000 bytes and reads successfully, the
summarized data is appended to the prompt provided the prompt mentions a
graph/chart keyword. -/
def fileAugment (env : IterEnv) (prompt : String) : String :=
  match env.extract_file_name prompt with
  | none => prompt
  | some name =>
    if strContains name "http" || strContains name "https" || strContains name "www." then
      prompt
    else if env.fileExists then
      if env.fileSize < 50000 then
        match env.readData with
        | Except.ok file_data =>
          if containsAny prompt ["graph", "graphs", "chart", "charts"] then
            prompt ++ "\n" ++ "This is file data from user input: " ++ file_data ++
              " use this to analyze the data."
          else prompt
        | Except.error _ => prompt
      else prompt
    else prompt

/-- Embedding of the execute-and-recover segment of `interpreter_main`
(lines 491-519): one dispatcher call; if its error is a known dependency
signature and a non-empty package name is extracted, install, sleep 10,
and dispatch exactly once more; the second result is final. -/
def recoverySegment (env : IterEnv) (f : ModeFlags) (interpMode lang : String)
    (execFlag : Bool) (extractedCode : String) :
    (Option String × Option String) × List Event :=
  let r1 := execute_code f interpMode lang execFlag (env.answer 0) (env.codeInterp 0)
    extractedCode env.osName
  let ev1 := [Event.dispatch extractedCode env.osName]
  match r1.1.2 with
  | none => (r1.1, ev1)
  | some code_error =>
    if error_messages.any (fun m => strContains code_error m) then
      match env.extract_package_name code_error lang with
      | none => (r1.1, ev1)
      | some package_name =>
        if package_name == "" then (r1.1, ev1)
        else
          let r2 := execute_code f interpMode lang execFlag (env.answer 1) (env.codeInterp 1)
            extractedCode env.osName
          (r2.1, ev1 ++ [Event.installPkg package_name, Event.sleep 10,
            Event.dispatch extractedCode env.osName])
    else (r1.1, ev1)

/-- Embedding of one iteration of the session loop of
`Interpreter.interpreter_main` (lines 368-537), producing how the iteration
ends, the trace of observable events in program order, and the updated
interpreter state.  Persistence (`save_history_json`, line 533) is an external
collaborator and is recorded as a `persist` event with the arguments the
source passes. -/
def iteration (f : ModeFlags) (execFlag : Bool) (model : String)
    (st : InterpState) (env : IterEnv) : IterResult × List Event × InterpState :=
  let interpMode := interpreterModeString f
  if toLowerStr env.task == "exit" || toLowerStr env.task == "quit" then
    (IterResult.exitLoop, ([], st))
  else
    match get_mode_prompt f st env.task env.osName with
    | (none, st1) => (IterResult.raised "TypeError", ([], st1))
    | (some prompt0, st1) =>
      let ev0 := [Event.promptBuilt prompt0, Event.cleanResponses]
      let prompt1 := fileAugment env prompt0
      let lang := st1.INTERPRETER_LANGUAGE
      let prompt2 := graphAug lang prompt1
      let prompt3 := chartAug lang prompt2
      let prompt4 := tableAug lang prompt3
      match env.genOutput with
      | Except.error msg => (IterResult.raised msg, (ev0 ++ [Event.modelCall prompt4], st1))
      | Except.ok gen =>
        let ev1 := ev0 ++ [Event.modelCall prompt4]
        if interpMode == "Vision" then (IterResult.continueLoop, (ev1, st1))
        else
          let extractedCode := env.extract_code gen
          if extractedCode == "" then
            (IterResult.continueLoop,
              (ev1 ++ [Event.persist env.task interpMode env.osName lang prompt4 extractedCode model],
               st1))
          else
            let res := recoverySegment env f interpMode lang execFlag extractedCode
            (IterResult.continueLoop,
              (ev1 ++ res.2 ++
                [Event.persist env.task interpMode env.osName lang prompt4 extractedCode model],
               st1))

/-- Environment-variable oracle for the API keys read by
`Interpreter.initialize_client` (lines 108-176). -/
structure KeyEnv where
  OPENAI_API_KEY : Option String
  PALM_API_KEY : Option String
  GEMINI_API_KEY : Option String
  HUGGINGFACE_API_KEY : Option String

/-- The `model_api_keys` dictionary of `initialize_client` (lines 143-146). -/
def model_api_keys : List (String × String) :=
  [("palm", "PALM_API_KEY"), ("gemini-pro", "GEMINI_API_KEY")]

/-- Lookup of a named key in the environment oracle (model of `os.getenv`). -/
def getenvKey (env : KeyEnv) (name : String) : Option String :=
  if name == "PALM_API_KEY" then env.PALM_API_KEY
  else if name == "GEMINI_API_KEY" then env.GEMINI_API_KEY
  else none

/-- The OpenAI branch of `initialize_client` (lines 129-141): runs only for
model identifiers containing "gpt"; `not hf_key` in Python is true for both
`None` and the empty string. -/
def gptKeyCheck (model : String) (env : KeyEnv) : Except String Unit :=
  if strContains model "gpt" then
    match env.OPENAI_API_KEY with
    | none => Except.error "OpenAI Key not found in .env file."
    | some hf_key =>
      if hf_key == "" then Except.error "OpenAI Key not found in .env file."
      else if !(strStartsWith hf_key "sk-") then
        Except.error "OpenAI token should start with \x27sk-\x27. Please check your .env file."
      else Except.ok ()
  else Except.ok ()

/-- The per-provider validation of the loop body (lines 148-163). -/
def checkProviderKey (keyVal : Option String) (api_key_name : String) : Except String Unit :=
  match keyVal with
  | none => Except.error (api_key_name ++ " not found in .env file.")
  | some api_key =>
    if api_key == "" then Except.error (api_key_name ++ " not found in .env file.")
    else if strContains api_key " " || api_key.length ≤ 15 then
      Except.error (api_key_name ++
        " should have no spaces, length greater than 15. Please check your .env file.")
    else Except.ok ()

/-- The `for model, api_key_name in model_api_keys.items()` loop of
`initialize_client` (lines 148-163): a raise aborts the loop, otherwise every
entry whose model substring matches is validated. -/
def providerLoopCheck (model : String) (env : KeyEnv) : Except String Unit :=
  model_api_keys.foldlM
    (fun _ p => if strContains model p.1 then checkProviderKey (getenvKey env p.2) p.2
      else Except.ok ()) ()

/-- The `else` clause attached to the provider loop (lines 164-176): validates
the Hugging Face key. -/
def huggingfaceKeyCheck (env : KeyEnv) : Except String Unit :=
  match env.HUGGINGFACE_API_KEY with
  | none => Except.error "HuggingFace token not found in .env file."
  | some hf_key =>
    if hf_key == "" then Except.error "HuggingFace token not found in .env file."
    else if !(strStartsWith hf_key "hf_") then
      Except.error "HuggingFace token should start with \x27hf_\x27. Please check your .env file."
    else Except.ok ()

/-- Embedding of the key-validation logic of `Interpreter.initialize_client`
(lines 129-176).  The `else` on line 164 is attached to the `for` loop on line
148 (a Python for-else); the loop body contains no `break`, so the Hugging
Face validation runs whenever the loop finishes without raising, for every
model identifier. -/
def initialize_client_validation (model : String) (env : KeyEnv) : Except String Unit := do
  gptKeyCheck model env
  providerLoopCheck model env
  huggingfaceKeyCheck env

/-! ### Helper lemmas and instrumentation counters -/

/-- A code-interpreter oracle whose runners all succeed with empty output. -/
def trivialOracle : CodeInterpreterOracle :=
  ⟨fun _ _ => Except.ok ("", ""), fun _ => Except.ok ("", ""), fun _ _ => Except.ok ("", "")⟩

/-- Number of mode flags that are set. -/
def countTrue (f : ModeFlags) : Nat :=
  (if f.CODE_MODE then 1 else 0) + (if f.SCRIPT_MODE then 1 else 0) +
    (if f.COMMAND_MODE then 1 else 0) + (if f.VISION_MODE then 1 else 0)

/-- Number of Execution Dispatcher invocations recorded in a trace. -/
def countDispatch (tr : List Event) : Nat :=
  tr.countP (fun e => match e with | Event.dispatch _ _ => true | _ => false)

/-- Number of Interaction Records persisted in a trace. -/
def countPersist (tr : List Event) : Nat :=
  tr.countP (fun e => match e with | Event.persist _ _ _ _ _ _ _ => true | _ => false)

theorem initialize_mode_cases (m : Option String) :
    initialize_mode m = ⟨true, false, false, false⟩ ∨
    initialize_mode m = ⟨false, true, false, false⟩ ∨
    initialize_mode m = ⟨false, false, true, false⟩ ∨
    initialize_mode m = ⟨false, false, false, true⟩ := by
  rcases m with _ | s
  · left; rfl
  · by_cases h1 : s = "script"
    · subst h1; right; left; rfl
    · by_cases h2 : s = "command"
      · subst h2; right; right; left; rfl
      · by_cases h3 : s = "vision"
        · subst h3; right; right; right; rfl
        · left
          have b1 : (some s == some "script") = false := by simp [h1]
          have b2 : (some s == some "command") = false := by simp [h2]
          have b3 : (some s == some "vision") = false := by simp [h3]
          simp [initialize_mode, b1, b2, b3]

/-- C10: after `initialize_mode`, exactly one of the four mode flags is true,
and any mode argument other than "script", "command" or "vision" (including
an absent one) yields Code mode. -/
theorem claim_c10_mode_flags (m : Option String) :
    countTrue (initialize_mode m) = 1 ∧
    ((m ≠ some "script" ∧ m ≠ some "command" ∧ m ≠ some "vision") →
      initialize_mode m = ⟨true, false, false, false⟩) := by
  constructor
  · rcases initialize_mode_cases m with h | h | h | h <;> rw [h] <;> rfl
  · rintro ⟨h1, h2, h3⟩
    rcases m with _ | s
    · rfl
    · have g1 : s ≠ "script" := fun hs => h1 (by rw [hs])
      have g2 : s ≠ "command" := fun hs => h2 (by rw [hs])
      have g3 : s ≠ "vision" := fun hs => h3 (by rw [hs])
      have b1 : (some s == some "script") = false := by simp [g1]
      have b2 : (some s == some "command") = false := by simp [g2]
      have b3 : (some s == some "vision") = false := by simp [g3]
      simp [initialize_mode, b1, b2, b3]

/-- Witness for C10 at the unrecognized mode argument "repl". -/
theorem claim_c10_witness :
    countTrue (initialize_mode (some "repl")) = 1 ∧
    initialize_mode (some "repl") = ⟨true, false, false, false⟩ :=
  ⟨(claim_c10_mode_flags (some "repl")).1,
    (claim_c10_mode_flags (some "repl")).2 (by decide)⟩

/-- C8: an input task equal to "exit" or "quit" up to case terminates the
session loop immediately with an empty trace (in particular no Interaction
Record), and no other input makes the loop terminate normally. -/
theorem claim_c8_exit_quit (f : ModeFlags) (execFlag : Bool) (model : String)
    (st : InterpState) (env : IterEnv) :
    ((toLowerStr env.task = "exit" ∨ toLowerStr env.task = "quit") →
      iteration f execFlag model st env = (IterResult.exitLoop, ([], st))) ∧
    (toLowerStr env.task ≠ "exit" → toLowerStr env.task ≠ "quit" →
      (iteration f execFlag model st env).1 ≠ IterResult.exitLoop) := by
  constructor
  · intro h
    have hc : (toLowerStr env.task == "exit" || toLowerStr env.task == "quit") = true := by
      rcases h with h | h <;> simp [h]
    simp [iteration, hc]
  · intro h1 h2
    have hc : (toLowerStr env.task == "exit" || toLowerStr env.task == "quit") = false := by
      simp [h1, h2]
    simp only [iteration, hc, Bool.false_eq_true, if_false]
    split
    · simp
    · split
      · simp
      · split
        · simp
        · split <;> simp

/-- Witness for C8: "EXIT" terminates with nothing persisted; "hello" does
not terminate the loop. -/
theorem claim_c8_witness :
    iteration ⟨true, false, false, false⟩ false "gpt-3.5-turbo" ⟨"python", []⟩
      { task := "EXIT", osName := "Linux", extract_file_name := fun _ => none,
        fileExists := false, fileSize := 0, readData := Except.ok "",
        genOutput := Except.ok "", extract_code := fun _ => "",
        answer := fun _ => "n", codeInterp := fun _ => trivialOracle,
        extract_package_name := fun _ _ => none } =
      (IterResult.exitLoop, ([], ⟨"python", []⟩)) ∧
    (iteration ⟨true, false, false, false⟩ false "gpt-3.5-turbo" ⟨"python", []⟩
      { task := "hello", osName := "Linux", extract_file_name := fun _ => none,
        fileExists := false, fileSize := 0, readData := Except.ok "",
        genOutput := Except.ok "", extract_code := fun _ => "",
        answer := fun _ => "n", codeInterp := fun _ => trivialOracle,
        extract_package_name := fun _ _ => none }).1 ≠ IterResult.exitLoop :=
  ⟨(claim_c8_exit_quit _ _ _ _ _).1 (Or.inl (by decide)),
    (claim_c8_exit_quit _ _ _ _ _).2 (by decide) (by decide)⟩

/-- C7: the Execution Dispatcher returns `(None, None)` invoking no runner in
Vision mode and when a non-affirmative confirmation is given without
auto-execute; otherwise it invokes exactly one runner. -/
theorem claim_c7_dispatch (m : Option String) (lang : String) (execFlag : Bool)
    (ans : String) (ci : CodeInterpreterOracle) (extractedCode osName : String) :
    ((initialize_mode m).VISION_MODE = true →
      execute_code (initialize_mode m) (interpreterModeString (initialize_mode m))
        lang execFlag ans ci extractedCode osName = ((none, none), [])) ∧
    (execFlag = false → toLowerStr ans ≠ "y" →
      execute_code (initialize_mode m) (interpreterModeString (initialize_mode m))
        lang execFlag ans ci extractedCode osName = ((none, none), [])) ∧
    ((initialize_mode m).VISION_MODE = false → (execFlag = true ∨ toLowerStr ans = "y") →
      (execute_code (initialize_mode m) (interpreterModeString (initialize_mode m))
        lang execFlag ans ci extractedCode osName).2.length = 1) := by
  have hy1 : (toLowerStr "y" == "y") = true := by decide
  refine ⟨?_, ?_, ?_⟩
  · intro hv
    rcases initialize_mode_cases m with h | h | h | h <;> rw [h] at hv ⊢
    · exact absurd hv (by decide)
    · exact absurd hv (by decide)
    · exact absurd hv (by decide)
    · rfl
  · intro hf hy
    subst hf
    have hb : (toLowerStr ans == "y") = false := by simp [hy]
    rcases initialize_mode_cases m with h | h | h | h <;> rw [h] <;>
      simp [execute_code, interpreterModeString, hb]
  · intro hv hy
    have hrun : (toLowerStr (if execFlag then "y" else ans) == "y") = true := by
      cases execFlag with
      | true => exact hy1
      | false =>
        rcases hy with he | he
        · exact absurd he (by decide)
        · show (toLowerStr ans == "y") = true
          rw [he]; rfl
    rcases initialize_mode_cases m with h | h | h | h <;> rw [h] at hv ⊢
    · simp only [execute_code, interpreterModeString]
      simp only [hrun]
      cases hco : ci.execute_code extractedCode lang with
      | ok p => rcases p with ⟨o, e⟩; simp [hco]
      | error msg => simp [hco]
    · simp only [execute_code, interpreterModeString]
      simp only [hrun]
      cases hco : ci.execute_script extractedCode osName with
      | ok p => rcases p with ⟨o, e⟩; simp [hco]
      | error msg => simp [hco]
    · simp only [execute_code, interpreterModeString]
      simp only [hrun]
      cases hco : ci.execute_command extractedCode with
      | ok p => rcases p with ⟨o, e⟩; simp [hco]
      | error msg => simp [hco]
    · exact absurd hv (by decide)

/-- Witness for C7: Vision mode yields no execution; Code mode with
auto-execute invokes exactly one runner. -/
theorem claim_c7_witness :
    execute_code (initialize_mode (some "vision"))
      (interpreterModeString (initialize_mode (some "vision")))
      "python" false "y" trivialOracle "print(1)" "Linux" = ((none, none), []) ∧
    (execute_code (initialize_mode (some "code"))
      (interpreterModeString (initialize_mode (some "code")))
      "python" true "n" trivialOracle "print(1)" "Linux").2.length = 1 :=
  ⟨(claim_c7_dispatch (some "vision") "python" false "y" trivialOracle "print(1)" "Linux").1
      (by decide),
    (claim_c7_dispatch (some "code") "python" true "n" trivialOracle "print(1)" "Linux").2.2
      (by decide) (Or.inl rfl)⟩

theorem countDispatch_recoverySegment_le (env : IterEnv) (f : ModeFlags)
    (interpMode lang : String) (execFlag : Bool) (extractedCode : String) :
    countDispatch (recoverySegment env f interpMode lang execFlag extractedCode).2 ≤ 2 := by
  simp only [recoverySegment]
  repeat' split
  all_goals simp [countDispatch, List.countP_append, List.countP_cons, List.countP_nil]

theorem countPersist_recoverySegment (env : IterEnv) (f : ModeFlags)
    (interpMode lang : String) (execFlag : Bool) (extractedCode : String) :
    countPersist (recoverySegment env f interpMode lang execFlag extractedCode).2 = 0 := by
  simp only [recoverySegment]
  repeat' split
  all_goals simp [countPersist, List.countP_append, List.countP_cons, List.countP_nil]

/-- C1: every session-loop iteration invokes the Execution Dispatcher at most
twice, and when the error of the first attempt carries a known dependency
signature and a (non-empty) package name is extracted, the recovery segment
installs that package, sleeps the fixed 10 units, re-dispatches exactly once
with the same extracted code and os_name, and the result of the second attempt is
final whatever it is. -/
theorem claim_c1_recovery (f : ModeFlags) (execFlag : Bool) (model : String)
    (st : InterpState) (env : IterEnv) (interpMode lang extractedCode err pkg : String) :
    countDispatch (iteration f execFlag model st env).2.1 ≤ 2 ∧
    ((execute_code f interpMode lang execFlag (env.answer 0) (env.codeInterp 0)
        extractedCode env.osName).1.2 = some err →
      error_messages.any (fun msg => strContains err msg) = true →
      env.extract_package_name err lang = some pkg →
      pkg ≠ "" →
      recoverySegment env f interpMode lang execFlag extractedCode =
        ((execute_code f interpMode lang execFlag (env.answer 1) (env.codeInterp 1)
            extractedCode env.osName).1,
          [Event.dispatch extractedCode env.osName, Event.installPkg pkg, Event.sleep 10,
            Event.dispatch extractedCode env.osName])) := by
  constructor
  · simp only [iteration]
    repeat' split
    all_goals simp [countDispatch, List.countP_append, List.countP_cons, List.countP_nil]
    exact countDispatch_recoverySegment_le _ _ _ _ _ _
  · intro h1 h2 h3 h4
    have hb : (pkg == "") = false := by simp [h4]
    simp only [recoverySegment]
    rw [h1]
    simp only [h2, if_true]
    rw [h3]
    simp [hb]

/-- An oracle whose code runner reports a missing pandas module. -/
def pandasErrOracle : CodeInterpreterOracle :=
  ⟨fun _ _ => Except.ok ("", ""), fun _ => Except.ok ("", ""),
    fun _ _ => Except.ok ("", "ModuleNotFoundError: No module named \x27pandas\x27")⟩

/-- An oracle whose runners all succeed (the post-install second attempt). -/
def okOracle : CodeInterpreterOracle :=
  ⟨fun _ _ => Except.ok ("done", ""), fun _ => Except.ok ("done", ""),
    fun _ _ => Except.ok ("done", "")⟩

/-- A Code-mode iteration environment whose first execution attempt fails
with a missing pandas module and whose second attempt succeeds. -/
def envC1 : IterEnv :=
  { task := "import pandas and print a dataframe"
  , osName := "Linux"
  , extract_file_name := fun _ => none
  , fileExists := false
  , fileSize := 0
  , readData := Except.ok ""
  , genOutput := Except.ok "import pandas"
  , extract_code := fun _ => "import pandas"
  , answer := fun _ => "y"
  , codeInterp := fun n => if n == 0 then pandasErrOracle else okOracle
  , extract_package_name := fun _ _ => some "pandas" }

/-- Witness for C1 at a concrete failing-then-recovering iteration. -/
theorem claim_c1_witness :
    countDispatch (iteration ⟨true, false, false, false⟩ true "gpt-3.5-turbo"
      ⟨"python", []⟩ envC1).2.1 ≤ 2 ∧
    recoverySegment envC1 ⟨true, false, false, false⟩ "code" "python" true
        "import pandas" =
      ((execute_code ⟨true, false, false, false⟩ "code" "python" true (envC1.answer 1)
          (envC1.codeInterp 1) "import pandas" envC1.osName).1,
        [Event.dispatch "import pandas" envC1.osName, Event.installPkg "pandas",
          Event.sleep 10, Event.dispatch "import pandas" envC1.osName]) :=
  ⟨(claim_c1_recovery ⟨true, false, false, false⟩ true "gpt-3.5-turbo" ⟨"python", []⟩
      envC1 "code" "python" "import pandas"
      "ModuleNotFoundError: No module named \x27pandas\x27" "pandas").1,
    (claim_c1_recovery ⟨true, false, false, false⟩ true "gpt-3.5-turbo" ⟨"python", []⟩
      envC1 "code" "python" "import pandas"
      "ModuleNotFoundError: No module named \x27pandas\x27" "pandas").2
      rfl (by decide) rfl (by decide)⟩

theorem countPersist_append (a b : List Event) :
    countPersist (a ++ b) = countPersist a + countPersist b := by
  simp [countPersist, List.countP_append]

theorem get_mode_prompt_some (f : ModeFlags)
    (hf : f = ⟨true, false, false, false⟩ ∨ f = ⟨false, true, false, false⟩ ∨
      f = ⟨false, false, true, false⟩ ∨ f = ⟨false, false, false, true⟩)
    (st : InterpState) (task osName : String) :
    ∃ p st1, get_mode_prompt f st task osName = (some p, st1) := by
  rcases hf with h | h | h | h <;> subst h
  · exact ⟨_, _, rfl⟩
  · exact ⟨_, _, rfl⟩
  · exact ⟨_, _, rfl⟩
  · exact ⟨_, _, rfl⟩

/-- An iteration environment in Vision mode: the model call succeeds, the
input is not an exit command. -/
def envC3 : IterEnv :=
  { task := "describe the image"
  , osName := "MacOS"
  , extract_file_name := fun _ => none
  , fileExists := false
  , fileSize := 0
  , readData := Except.ok ""
  , genOutput := Except.ok "a photo of a cat"
  , extract_code := fun _ => ""
  , answer := fun _ => "n"
  , codeInterp := fun _ => trivialOracle
  , extract_package_name := fun _ _ => none }

/-- C3 (amended): in every non-exit iteration whose model call succeeds,
exactly one Interaction Record is persisted in Code, Script and Command
modes, and none in Vision mode (the Vision branch issues `continue` before
`save_history_json`). -/
theorem claim_c3_persist (m : Option String) (execFlag : Bool) (model : String)
    (st : InterpState) (env : IterEnv) (g : String) :
    toLowerStr env.task ≠ "exit" → toLowerStr env.task ≠ "quit" →
    env.genOutput = Except.ok g →
    countPersist (iteration (initialize_mode m) execFlag model st env).2.1 =
      (if (initialize_mode m).VISION_MODE then 0 else 1) := by
  intro h1 h2 h3
  have hc : (toLowerStr env.task == "exit" || toLowerStr env.task == "quit") = false := by
    simp [h1, h2]
  obtain ⟨p, st1, hp⟩ := get_mode_prompt_some (initialize_mode m) (initialize_mode_cases m)
    st env.task env.osName
  simp only [iteration, hc, Bool.false_eq_true, if_false, hp, h3]
  rcases initialize_mode_cases m with h | h | h | h <;> rw [h]
  · have hv : (interpreterModeString ⟨true, false, false, false⟩ == "Vision") = false := by
      decide
    simp only [hv, Bool.false_eq_true, if_false]
    by_cases hx : env.extract_code g = ""
    · simp [hx, countPersist, List.countP_append, List.countP_cons, List.countP_nil]
    · have hx2 : (env.extract_code g == "") = false := by simp [hx]
      simp only [hx2, Bool.false_eq_true, if_false]
      rw [countPersist_append, countPersist_append, countPersist_recoverySegment]
      simp [countPersist, List.countP_cons, List.countP_nil]
  · have hv : (interpreterModeString ⟨false, true, false, false⟩ == "Vision") = false := by
      decide
    simp only [hv, Bool.false_eq_true, if_false]
    by_cases hx : env.extract_code g = ""
    · simp [hx, countPersist, List.countP_append, List.countP_cons, List.countP_nil]
    · have hx2 : (env.extract_code g == "") = false := by simp [hx]
      simp only [hx2, Bool.false_eq_true, if_false]
      rw [countPersist_append, countPersist_append, countPersist_recoverySegment]
      simp [countPersist, List.countP_cons, List.countP_nil]
  · have hv : (interpreterModeString ⟨false, false, true, false⟩ == "Vision") = false := by
      decide
    simp only [hv, Bool.false_eq_true, if_false]
    by_cases hx : env.extract_code g = ""
    · simp [hx, countPersist, List.countP_append, List.countP_cons, List.countP_nil]
    · have hx2 : (env.extract_code g == "") = false := by simp [hx]
      simp only [hx2, Bool.false_eq_true, if_false]
      rw [countPersist_append, countPersist_append, countPersist_recoverySegment]
      simp [countPersist, List.countP_cons, List.countP_nil]
  · have hv : (interpreterModeString ⟨false, false, false, true⟩ == "Vision") = true := by
      decide
    simp only [hv, if_true]
    simp [countPersist, List.countP_cons, List.countP_nil]

/-- C3 counterexample: a Vision-mode iteration that is not terminated by an
exit input and whose model call succeeds persists no Interaction Record at
all (the claim asserts exactly one is persisted also in Vision mode). -/
theorem claim_c3_counterexample :
    (iteration (initialize_mode (some "vision")) false "gemini-pro" ⟨"python", []⟩
      envC3).1 = IterResult.continueLoop ∧
    countPersist (iteration (initialize_mode (some "vision")) false "gemini-pro"
      ⟨"python", []⟩ envC3).2.1 = 0 := by
  decide

/-- A non-exit Code-mode iteration environment with a successful model call. -/
def envC3code : IterEnv :=
  { task := "print hello"
  , osName := "Linux"
  , extract_file_name := fun _ => none
  , fileExists := false
  , fileSize := 0
  , readData := Except.ok ""
  , genOutput := Except.ok "print(1)"
  , extract_code := fun _ => "print(1)"
  , answer := fun _ => "n"
  , codeInterp := fun _ => trivialOracle
  , extract_package_name := fun _ _ => none }

/-- Witness for C3 at a concrete Code-mode iteration. -/
theorem claim_c3_witness :
    countPersist (iteration (initialize_mode (some "code")) false "gpt-3.5-turbo"
      ⟨"python", []⟩ envC3code).2.1 =
      (if (initialize_mode (some "code")).VISION_MODE then 0 else 1) :=
  claim_c3_persist (some "code") false "gpt-3.5-turbo" ⟨"python", []⟩ envC3code "print(1)"
    (by decide) (by decide) rfl

/-- Recognizer for the cleanup event. -/
def isCleanEvent (e : Event) : Bool :=
  match e with | Event.cleanResponses => true | _ => false

/-- Recognizer for the prompt-construction event. -/
def isPromptBuiltEvent (e : Event) : Bool :=
  match e with | Event.promptBuilt _ => true | _ => false

/-- The ordering asserted by the claim: when both occur in a trace, the
cleanup of transient resource files occurs strictly before prompt
construction. -/
def cleanBeforeBuild (tr : List Event) : Bool :=
  match tr.findIdx? isCleanEvent, tr.findIdx? isPromptBuiltEvent with
  | some i, some j => Nat.blt i j
  | _, _ => true

/-- A non-exit Command-mode iteration environment. -/
def envC4 : IterEnv :=
  { task := "list files"
  , osName := "Linux"
  , extract_file_name := fun _ => none
  , fileExists := false
  , fileSize := 0
  , readData := Except.ok ""
  , genOutput := Except.ok "ls -la"
  , extract_code := fun _ => "ls -la"
  , answer := fun _ => "y"
  , codeInterp := fun _ => trivialOracle
  , extract_package_name := fun _ _ => none }

/-- C4 counterexample: in a concrete iteration the prompt-construction event
is at index 0 and the cleanup event at index 1 of the trace —
`get_mode_prompt` (line 373) runs before `_clean_responses` (line 376), so
the deletion does not happen before the prompt is built. -/
theorem claim_c4_counterexample :
    cleanBeforeBuild (iteration (initialize_mode (some "command")) true "gpt-3.5-turbo"
      ⟨"python", []⟩ envC4).2.1 = false ∧
    (iteration (initialize_mode (some "command")) true "gpt-3.5-turbo"
      ⟨"python", []⟩ envC4).2.1.findIdx? isPromptBuiltEvent = some 0 ∧
    (iteration (initialize_mode (some "command")) true "gpt-3.5-turbo"
      ⟨"python", []⟩ envC4).2.1.findIdx? isCleanEvent = some 1 := by
  decide

/-- C4 (amended): in every non-exit iteration the trace begins with the
prompt-construction event immediately followed by the cleanup event, so the
transient resource files are deleted right after the base mode prompt is
built and before the model call, any execution and persistence. -/
theorem claim_c4_clean_order (m : Option String) (execFlag : Bool) (model : String)
    (st : InterpState) (env : IterEnv) :
    toLowerStr env.task ≠ "exit" → toLowerStr env.task ≠ "quit" →
    ∃ p rest, (iteration (initialize_mode m) execFlag model st env).2.1 =
      Event.promptBuilt p :: Event.cleanResponses :: rest := by
  intro h1 h2
  have hc : (toLowerStr env.task == "exit" || toLowerStr env.task == "quit") = false := by
    simp [h1, h2]
  obtain ⟨p, st1, hp⟩ := get_mode_prompt_some (initialize_mode m) (initialize_mode_cases m)
    st env.task env.osName
  simp only [iteration, hc, Bool.false_eq_true, if_false, hp]
  cases hg : env.genOutput with
  | error msg => exact ⟨p, _, rfl⟩
  | ok g =>
    simp only []
    rcases Bool.eq_false_or_eq_true
        (interpreterModeString (initialize_mode m) == "Vision") with hv | hv
    · rw [if_pos hv]
      exact ⟨p, _, rfl⟩
    · have hv2 : ¬ ((interpreterModeString (initialize_mode m) == "Vision") = true) := by
        simp [hv]
      rw [if_neg hv2]
      rcases Bool.eq_false_or_eq_true (env.extract_code g == "") with hx | hx
      · rw [if_pos hx]
        exact ⟨p, _, rfl⟩
      · have hx2 : ¬ ((env.extract_code g == "") = true) := by simp [hx]
        rw [if_neg hx2]
        exact ⟨p, _, rfl⟩

/-- Witness for C4 at a concrete Command-mode iteration. -/
theorem claim_c4_witness :
    ∃ p rest, (iteration (initialize_mode (some "command")) false "gpt-3.5-turbo"
      ⟨"python", []⟩ envC4).2.1 =
      Event.promptBuilt p :: Event.cleanResponses :: rest :=
  claim_c4_clean_order (some "command") false "gpt-3.5-turbo" ⟨"python", []⟩ envC4
    (by decide) (by decide)

theorem isPrefixOf_append_self (l suf : List Char) : l.isPrefixOf (l ++ suf) = true := by
  induction l with
  | nil => simp [List.isPrefixOf]
  | cons c t ih => simp [List.isPrefixOf, ih]

theorem isPrefixOf_self (l : List Char) : l.isPrefixOf l = true := by
  induction l with
  | nil => rfl
  | cons c t ih => simp [List.isPrefixOf, ih]

theorem isPrefixOf_append_right (l m ext : List Char) (h : l.isPrefixOf m = true) :
    l.isPrefixOf (m ++ ext) = true := by
  induction l generalizing m with
  | nil => simp [List.isPrefixOf]
  | cons a as ih =>
    cases m with
    | nil => simp [List.isPrefixOf] at h
    | cons b bs =>
      simp only [List.isPrefixOf, Bool.and_eq_true, beq_iff_eq] at h
      simp only [List.cons_append, List.isPrefixOf, Bool.and_eq_true, beq_iff_eq]
      exact ⟨h.1, ih bs h.2⟩

theorem hasSubstr_nil (l : List Char) : hasSubstr [] l = true := by
  cases l <;> simp [hasSubstr, List.isPrefixOf]

theorem hasSubstr_of_isPrefixOf (needle hay : List Char)
    (h : needle.isPrefixOf hay = true) : hasSubstr needle hay = true := by
  cases hay with
  | nil =>
    cases needle with
    | nil => rfl
    | cons c t => simp [List.isPrefixOf] at h
  | cons c t => simp [hasSubstr, h]

theorem hasSubstr_append_right (needle hay ext : List Char)
    (h : hasSubstr needle hay = true) : hasSubstr needle (hay ++ ext) = true := by
  induction hay with
  | nil =>
    have hn : needle = [] := by
      cases needle with
      | nil => rfl
      | cons c t => simp [hasSubstr, List.isEmpty] at h
    subst hn
    exact hasSubstr_nil ext
  | cons c t ih =>
    simp only [hasSubstr, Bool.or_eq_true] at h
    simp only [List.cons_append, hasSubstr, Bool.or_eq_true]
    rcases h with h | h
    · exact Or.inl (isPrefixOf_append_right _ _ _ h)
    · exact Or.inr (ih h)

theorem hasSubstr_append_left (needle hay ext : List Char)
    (h : hasSubstr needle hay = true) : hasSubstr needle (ext ++ hay) = true := by
  induction ext with
  | nil => simpa using h
  | cons c t ih =>
    simp only [List.cons_append, hasSubstr, Bool.or_eq_true]
    exact Or.inr ih

theorem strContains_refl (s : String) : strContains s s = true :=
  hasSubstr_of_isPrefixOf _ _ (isPrefixOf_self s.data)

theorem strContains_append_left (s t mid : String) (h : strContains s mid = true) :
    strContains (s ++ t) mid = true := by
  obtain ⟨sd⟩ := s
  obtain ⟨td⟩ := t
  obtain ⟨md⟩ := mid
  exact hasSubstr_append_right md sd td h

theorem strContains_append_right (s t mid : String) (h : strContains t mid = true) :
    strContains (s ++ t) mid = true := by
  obtain ⟨sd⟩ := s
  obtain ⟨td⟩ := t
  obtain ⟨md⟩ := mid
  exact hasSubstr_append_left md td sd h

/-- The dialect mapping as the amended claim states it, written independently
of the embedding: macos to applescript, linux to bash, windows to powershell,
and python (not a generic "script" dialect) for any other OS name. -/
def specScriptLanguage (osName : String) : String :=
  if toLowerStr osName == "macos" then "applescript"
  else if toLowerStr osName == "linux" then "bash"
  else if toLowerStr osName == "windows" then "powershell"
  else "python"

/-- The script-type wording embedded in the script prompt, per OS name. -/
def specScriptWording (osName : String) : String :=
  if toLowerStr osName == "macos" then "Apple script"
  else if toLowerStr osName == "linux" then "Bash Shell script"
  else if toLowerStr osName == "windows" then "Powershell script"
  else "script"

theorem get_script_prompt_eq (st : InterpState) (task osName : String) :
    get_script_prompt st task osName =
      ("\nGenerate " ++ specScriptWording osName ++
        " for this prompt and make this script easy to read and understand for this task \x27" ++
        task ++ " for Operating System is " ++ osName ++ "\x27.",
       { st with INTERPRETER_LANGUAGE := specScriptLanguage osName }) := by
  by_cases h1 : toLowerStr osName = "macos"
  · simp [get_script_prompt, specScriptWording, specScriptLanguage, language_map, h1]
  · by_cases h2 : toLowerStr osName = "linux"
    · simp [get_script_prompt, specScriptWording, specScriptLanguage, language_map, h1, h2]
      decide
    · by_cases h3 : toLowerStr osName = "windows"
      · simp [get_script_prompt, specScriptWording, specScriptLanguage, language_map,
          h1, h2, h3]
        decide
      · have hb1 : (toLowerStr osName == "macos") = false := by simp [h1]
        have hb2 : (toLowerStr osName == "linux") = false := by simp [h2]
        have hb3 : (toLowerStr osName == "windows") = false := by simp [h3]
        simp [get_script_prompt, specScriptWording, specScriptLanguage, language_map,
          List.lookup, hb1, hb2, hb3]

/-- C2 counterexample: for the OS name "solaris" (none of macos, linux,
windows) `get_script_prompt` sets the active target-language field to
"python", not to a generic "script" dialect as the claim asserts. -/
theorem claim_c2_counterexample :
    (get_script_prompt ⟨"python", []⟩ "open a file" "solaris").2.INTERPRETER_LANGUAGE =
      "python" ∧
    (get_script_prompt ⟨"python", []⟩ "open a file" "solaris").2.INTERPRETER_LANGUAGE ≠
      "script" := by
  decide

/-- C2 (amended): Script-mode prompt building maps the lowercased OS name
macos/linux/windows to the dialects applescript/bash/powershell and any other
OS name to python, stores the dialect in the active target-language field,
embeds the matching script-type wording in the prompt text, and leaves the
conversation history unchanged. -/
theorem claim_c2_script_prompt (st : InterpState) (task osName : String) :
    (get_script_prompt st task osName).2.INTERPRETER_LANGUAGE = specScriptLanguage osName ∧
    strContains (get_script_prompt st task osName).1 (specScriptWording osName) = true ∧
    (get_script_prompt st task osName).2.history = st.history := by
  rw [get_script_prompt_eq]
  refine ⟨rfl, ?_, rfl⟩
  exact strContains_append_left _ _ _ (strContains_append_left _ _ _
    (strContains_append_left _ _ _ (strContains_append_left _ _ _
      (strContains_append_left _ _ _ (strContains_append_right _ _ _
        (strContains_refl _))))))

/-- C5 counterexample: for target language "bash" (as set by Script mode on
linux) a prompt containing "table" receives no augmentation at all — in
particular not the table.html instruction the claim asserts for every
non-Python target language. -/
theorem claim_c5_counterexample :
    strContains (toLowerStr "make a table of results") "table" = true ∧
    tableAug "bash" "make a table of results" = "make a table of results" ∧
    strContains (tableAug "bash" "make a table of results") "table.html" = false := by
  decide

/-- C5 (amended): when the lowercased prompt contains "table", the
augmentation appends the table.md instruction exactly for target language
python and the table.html instruction exactly for target language
javascript; every other target language receives no table augmentation, and
a prompt without "table" is never augmented. -/
theorem claim_c5_table_aug (lang prompt : String) :
    (strContains (toLowerStr prompt) "table" = true →
      tableAug lang prompt =
        (if lang == "python" then
          prompt ++ "\n" ++
            "using Python use Pandas save the table in file called \x27table.md\x27"
        else if lang == "javascript" then
          prompt ++ "\n" ++
            "using JavaScript use DataTables save the table in file called \x27table.html\x27"
        else prompt)) ∧
    (strContains (toLowerStr prompt) "table" = false → tableAug lang prompt = prompt) := by
  constructor
  · intro h; simp [tableAug, h]
  · intro h; simp [tableAug, h]

/-- Witness for C5: a Python-language prompt containing "table" gets the
table.md instruction appended. -/
theorem claim_c5_witness :
    strContains (toLowerStr "make a table of results") "table" = true ∧
    tableAug "python" "make a table of results" =
      (if ("python" : String) == "python" then
        "make a table of results" ++ "\n" ++
          "using Python use Pandas save the table in file called \x27table.md\x27"
      else if ("python" : String) == "javascript" then
        "make a table of results" ++ "\n" ++
          "using JavaScript use DataTables save the table in file called \x27table.html\x27"
      else "make a table of results") :=
  ⟨by decide, (claim_c5_table_aug "python" "make a table of results").1 (by decide)⟩

/-- C9 counterexample: for target language "bash", a prompt containing both
"chart" and "plot" receives the chart instruction zero times, not exactly
once as the claim asserts for every prompt containing a chart keyword. -/
theorem claim_c9_counterexample :
    containsAny "draw a chart and a plot" ["chart", "charts", "plot", "plots"] = true ∧
    chartAug "bash" "draw a chart and a plot" = "draw a chart and a plot" ∧
    strContains (chartAug "bash" "draw a chart and a plot") "chart.png" = false := by
  decide

/-- C9 (amended): when the lowercased prompt contains any of chart, charts,
plot, plots, the chart augmentation appends the chart instruction exactly
once for target languages python and javascript — a single append regardless
of how many of the keywords occur — and appends nothing for any other
language; a prompt without these keywords is never augmented. -/
theorem claim_c9_chart_once (lang prompt : String) :
    (containsAny prompt ["chart", "charts", "plot", "plots"] = true →
      chartAug lang prompt =
        (if lang == "python" then
          prompt ++ "\n" ++
            "using Python use Plotly save the chart in file called \x27chart.png\x27"
        else if lang == "javascript" then
          prompt ++ "\n" ++
            "using JavaScript use Chart.js save the chart in file called \x27chart.png\x27"
        else prompt)) ∧
    (containsAny prompt ["chart", "charts", "plot", "plots"] = false →
      chartAug lang prompt = prompt) := by
  constructor
  · intro h; simp [chartAug, h]
  · intro h; simp [chartAug, h]

/-- Witness for C9: a Python-language prompt containing both "chart" and
"plot" gets the chart instruction appended exactly once. -/
theorem claim_c9_witness :
    containsAny "draw a chart and a plot" ["chart", "charts", "plot", "plots"] = true ∧
    chartAug "python" "draw a chart and a plot" =
      (if ("python" : String) == "python" then
        "draw a chart and a plot" ++ "\n" ++
          "using Python use Plotly save the chart in file called \x27chart.png\x27"
      else if ("python" : String) == "javascript" then
        "draw a chart and a plot" ++ "\n" ++
          "using JavaScript use Chart.js save the chart in file called \x27chart.png\x27"
      else "draw a chart and a plot") :=
  ⟨by decide, (claim_c9_chart_once "python" "draw a chart and a plot").1 (by decide)⟩

/-- A Hugging Face key passes the validation of lines 164-176 exactly when it
is present, non-empty and starts with "hf_". -/
def hfKeyValid (env : KeyEnv) : Prop :=
  ∃ k, env.HUGGINGFACE_API_KEY = some k ∧ k ≠ "" ∧ strStartsWith k "hf_" = true

theorem huggingfaceKeyCheck_ok_iff (env : KeyEnv) :
    huggingfaceKeyCheck env = Except.ok () ↔ hfKeyValid env := by
  unfold huggingfaceKeyCheck hfKeyValid
  cases h : env.HUGGINGFACE_API_KEY with
  | none => simp
  | some k =>
    by_cases hk : k = ""
    · subst hk; simp
    · have hb : (k == "") = false := by simp [hk]
      rcases Bool.eq_false_or_eq_true (strStartsWith k "hf_") with hs | hs
      · simp [hb, hs, hk]
      · simp [hb, hs, hk]

theorem initialize_client_validation_eq (model : String) (env : KeyEnv) :
    initialize_client_validation model env =
      (match gptKeyCheck model env with
      | Except.error e => Except.error e
      | Except.ok _ =>
        match providerLoopCheck model env with
        | Except.error e => Except.error e
        | Except.ok _ => huggingfaceKeyCheck env) := by
  unfold initialize_client_validation
  cases hg : gptKeyCheck model env with
  | error e => simp [Bind.bind, Except.bind, hg]
  | ok u =>
    cases u
    cases hp : providerLoopCheck model env with
    | error e => simp [Bind.bind, Except.bind, hg, hp]
    | ok v => cases v; simp [Bind.bind, Except.bind, hg, hp]

/-- C6: client initialization validates the Hugging Face key for every model
identifier — the `else` on line 164 belongs to the `for` loop, whose body has
no `break`, so it always runs after the provider-specific checks.  Whenever
HUGGINGFACE_API_KEY is absent, empty, or does not start with "hf_", the
validation raises, whatever the model identifier; conversely it can only
succeed when a valid Hugging Face key is present. -/
theorem claim_c6_hf_validation (model : String) (env : KeyEnv) :
    (¬ hfKeyValid env → ∃ e, initialize_client_validation model env = Except.error e) ∧
    (initialize_client_validation model env = Except.ok () → hfKeyValid env) := by
  constructor
  · intro hinv
    have hhf : ∃ e0, huggingfaceKeyCheck env = Except.error e0 := by
      cases hh : huggingfaceKeyCheck env with
      | error e0 => exact ⟨e0, rfl⟩
      | ok u =>
        cases u
        exact absurd ((huggingfaceKeyCheck_ok_iff env).mp hh) hinv
    obtain ⟨e0, he0⟩ := hhf
    rw [initialize_client_validation_eq]
    cases hg : gptKeyCheck model env with
    | error e => exact ⟨e, rfl⟩
    | ok u =>
      cases u
      cases hp : providerLoopCheck model env with
      | error e => exact ⟨e, rfl⟩
      | ok v => cases v; exact ⟨e0, he0⟩
  · intro hok
    rw [initialize_client_validation_eq] at hok
    cases hg : gptKeyCheck model env with
    | error e => rw [hg] at hok; cases hok
    | ok u =>
      cases u
      rw [hg] at hok
      cases hp : providerLoopCheck model env with
      | error e => rw [hp] at hok; cases hok
      | ok v =>
        cases v
        rw [hp] at hok
        exact (huggingfaceKeyCheck_ok_iff env).mp hok

/-- An environment with a well-formed OpenAI key and valid provider keys but
no Hugging Face key. -/
def keyEnvNoHF : KeyEnv :=
  { OPENAI_API_KEY := some "sk-aaaaaaaaaaaaaaaaaaaa"
  , PALM_API_KEY := some "palmkey1234567890"
  , GEMINI_API_KEY := some "geminikey1234567890"
  , HUGGINGFACE_API_KEY := none }

/-- Witness for C6: even for a "gpt" model identifier with a well-formed
OpenAI key, validation fails when the Hugging Face key is absent. -/
theorem claim_c6_witness :
    ∃ e, initialize_client_validation "gpt-3.5-turbo" keyEnvNoHF = Except.error e :=
  (claim_c6_hf_validation "gpt-3.5-turbo" keyEnvNoHF).1
    (by rintro ⟨k, hk, h1, h2⟩; cases hk)

end OpenInterpreter
